import Mathlib

/-!
Verification of the regularization / CNN tutorial notebooks.

The repository consists of five PyTorch notebooks: an L1-regularization
notebook, an Elastic-Net notebook, an L2-regularization notebook, a
Dropout/weight-decay notebook and a convolutional-network notebook.  Each
defines a network and a supervised training loop over MNIST mini-batches.

Shallow embedding used here:

* A parameter tensor is represented by the list of its elements in exact
  rational arithmetic (`Tensor := List ℚ`); every use of a tensor in the
  repository's own logic first flattens it with `view(-1)`, so the flat
  element list is the faithful representation.  `torch.cat` is `List.flatten`.
* The values produced by the external framework (the cross-entropy value
  of each forward pass, and the parameter update performed by
  `optimizer.step()`) are inputs of the model: each mini-batch supplies its
  cross-entropy value `ce : ℚ`, and the optimizer update is an arbitrary
  function `upd : ℕ → Params → Params`.  All theorems are proved for every
  such choice, so they hold whatever the framework computes.
* Each training loop is transcribed iteration by iteration from its
  notebook.  Every iteration produces an `IterRec` record holding the batch
  index, the parameters at the start of the iteration, the framework's
  cross-entropy value, the loss value handed to `backward()`, the trace of
  framework calls made (in order), and the statistics line printed, if any.
-/

/-- Tensor of rationals, represented by its flattened element list
(`parameter.view(-1)`); `torch.cat` of a list of tensors is `List.flatten`. -/
abbrev Tensor := List ℚ

/-- Parameter list of a model (`mlp.parameters()`), one flattened tensor per
trainable parameter. -/
abbrev Params := List Tensor

namespace MLP

/-- Source `MLP.compute_l1_loss`: `return torch.abs(w).sum()`. -/
def compute_l1_loss (w : Tensor) : ℚ := (w.map (fun x => |x|)).sum

/-- Source `MLP.compute_l2_loss`: `return torch.square(w).sum()`. -/
def compute_l2_loss (w : Tensor) : ℚ := (w.map (fun x => x ^ 2)).sum

end MLP

/-- Framework calls performed by one iteration of a training loop, in order:
`optimizer.zero_grad()`, the forward pass, the loss computation (carrying the
final loss value, penalty included when the notebook adds one),
`loss.backward()` (carrying the loss value that is backpropagated) and
`optimizer.step()`. -/
inductive Ev
  | zeroGrad
  | forwardPass
  | computeLoss (v : ℚ)
  | backward (v : ℚ)
  | optStep
deriving DecidableEq

/-- Shape of a framework call, forgetting the numeric value it carries. -/
inductive EvKind
  | zeroK
  | forwardK
  | lossK
  | backwardK
  | stepK
deriving DecidableEq

/-- Kind of an event. -/
def Ev.kind : Ev → EvKind
  | .zeroGrad => .zeroK
  | .forwardPass => .forwardK
  | .computeLoss _ => .lossK
  | .backward _ => .backwardK
  | .optStep => .stepK

/-- Trace of one loop iteration that backpropagates the loss value `v`. -/
def traceSkel (v : ℚ) : List Ev :=
  [Ev.zeroGrad, Ev.forwardPass, Ev.computeLoss v, Ev.backward v, Ev.optStep]

/-- Record of one mini-batch iteration of a training loop. -/
structure IterRec where
  idx : ℕ
  paramsBefore : Params
  ce : ℚ
  loss : ℚ
  trace : List Ev
  printed : Option (ℕ × ℚ)
deriving DecidableEq

/-- Abstract `optimizer.step()`: the framework's parameter update, taking the
batch index and the current parameters.  Everything is proved for every
update function. -/
abbrev Upd := ℕ → Params → Params

/-- Statistics lines produced by a list of iteration records. -/
def printsOf (recs : List IterRec) : List (ℕ × ℚ) := recs.filterMap IterRec.printed

/-- One epoch of the L1 notebook's training loop (`part_000`): for each batch,
zero the gradients, forward pass, `loss = loss_function(outputs, targets)`,
`l1_weight = 1.0`, collect `parameter.view(-1)` for every parameter,
`l1 = l1_weight * mlp.compute_l1_loss(torch.cat(l1_parameters))`,
`loss += l1`, backward pass, optimizer step; then print
`(i + 1, minibatch_loss)` when `i % 500 == 499` (no accumulator: the
`current_loss = 0.0` line is commented out in this notebook). -/
def l1Epoch (upd : Upd) : ℕ → Params → List ℚ → List IterRec × Params
  | _, params, [] => ([], params)
  | i, params, ce :: rest =>
      let l1_weight : ℚ := 1
      let l1_parameters : List Tensor := params
      let l1 := l1_weight * MLP.compute_l1_loss l1_parameters.flatten
      let loss := ce + l1
      let pr := if i % 500 = 499 then some (i + 1, loss) else none
      let next := l1Epoch upd (i + 1) (upd i params) rest
      (⟨i, params, ce, loss, traceSkel loss, pr⟩ :: next.1, next.2)

/-- The L1 notebook's full training loop: the epochs run in sequence on the
evolving parameters; the batch index restarts at `0` each epoch
(`enumerate(trainloader, 0)`). -/
def l1Training (upd : Upd) : Params → List (List ℚ) → List (List IterRec) × Params
  | params, [] => ([], params)
  | params, e :: es =>
      let ep := l1Epoch upd 0 params e
      let rest := l1Training upd ep.2 es
      (ep.1 :: rest.1, rest.2)

/-- One epoch of the Elastic-Net notebook's training loop (`part_001`, first
notebook): `l1_weight = 0.3`, `l2_weight = 0.7`,
`l1 = l1_weight * mlp.compute_l1_loss(torch.cat(parameters))`,
`l2 = l2_weight * mlp.compute_l2_loss(torch.cat(parameters))`,
`loss += l1; loss += l2`; statistics as in the L1 notebook (current
mini-batch loss, no accumulator). -/
def enEpoch (upd : Upd) : ℕ → Params → List ℚ → List IterRec × Params
  | _, params, [] => ([], params)
  | i, params, ce :: rest =>
      let l1_weight : ℚ := 3 / 10
      let l2_weight : ℚ := 7 / 10
      let parameters : List Tensor := params
      let l1 := l1_weight * MLP.compute_l1_loss parameters.flatten
      let l2 := l2_weight * MLP.compute_l2_loss parameters.flatten
      let loss := ce + l1 + l2
      let pr := if i % 500 = 499 then some (i + 1, loss) else none
      let next := enEpoch upd (i + 1) (upd i params) rest
      (⟨i, params, ce, loss, traceSkel loss, pr⟩ :: next.1, next.2)

/-- The Elastic-Net notebook's full training loop. -/
def enTraining (upd : Upd) : Params → List (List ℚ) → List (List IterRec) × Params
  | params, [] => ([], params)
  | params, e :: es =>
      let ep := enEpoch upd 0 params e
      let rest := enTraining upd ep.2 es
      (ep.1 :: rest.1, rest.2)

/-- One epoch of the L2 notebook's training loop (`part_002`):
`l2_weight = 1.0`, `l2 = l2_weight * mlp.compute_l2_loss(torch.cat(l2_parameters))`,
`loss += l2`; statistics as in the L1 notebook. -/
def l2Epoch (upd : Upd) : ℕ → Params → List ℚ → List IterRec × Params
  | _, params, [] => ([], params)
  | i, params, ce :: rest =>
      let l2_weight : ℚ := 1
      let l2_parameters : List Tensor := params
      let l2 := l2_weight * MLP.compute_l2_loss l2_parameters.flatten
      let loss := ce + l2
      let pr := if i % 500 = 499 then some (i + 1, loss) else none
      let next := l2Epoch upd (i + 1) (upd i params) rest
      (⟨i, params, ce, loss, traceSkel loss, pr⟩ :: next.1, next.2)

/-- The L2 notebook's full training loop. -/
def l2Training (upd : Upd) : Params → List (List ℚ) → List (List IterRec) × Params
  | params, [] => ([], params)
  | params, e :: es =>
      let ep := l2Epoch upd 0 params e
      let rest := l2Training upd ep.2 es
      (ep.1 :: rest.1, rest.2)

/-- One epoch of the Dropout / weight-decay notebook's training loop
(`part_001`, second notebook): no hand-rolled penalty; the loss is the plain
cross-entropy value; `current_loss += loss.item()`, and when `i % 500 == 499`
it prints `(i + 1, current_loss / 500)` and resets `current_loss = 0.0`.
Returns the records, the final accumulator and the final parameters. -/
def dropoutEpoch (upd : Upd) : ℕ → ℚ → Params → List ℚ → List IterRec × ℚ × Params
  | _, current_loss, params, [] => ([], current_loss, params)
  | i, current_loss, params, ce :: rest =>
      let loss := ce
      let acc := current_loss + loss
      let pr := if i % 500 = 499 then some (i + 1, acc / 500) else none
      let acc' := if i % 500 = 499 then 0 else acc
      let next := dropoutEpoch upd (i + 1) acc' (upd i params) rest
      (⟨i, params, ce, loss, traceSkel loss, pr⟩ :: next.1, next.2)

/-- The Dropout notebook's full training loop: `current_loss = 0.0` is set at
the start of every epoch. -/
def dropoutTraining (upd : Upd) : Params → List (List ℚ) → List (List IterRec) × Params
  | params, [] => ([], params)
  | params, e :: es =>
      let ep := dropoutEpoch upd 0 0 params e
      let rest := dropoutTraining upd ep.2.2 es
      (ep.1 :: rest.1, rest.2)

/-- One epoch of the ConvNet notebook's training loop (Session 5): same loop
body as the Dropout notebook — plain cross-entropy loss, `current_loss`
accumulator reset at every print. Transcribed separately from its notebook. -/
def convEpoch (upd : Upd) : ℕ → ℚ → Params → List ℚ → List IterRec × ℚ × Params
  | _, current_loss, params, [] => ([], current_loss, params)
  | i, current_loss, params, ce :: rest =>
      let loss := ce
      let acc := current_loss + loss
      let pr := if i % 500 = 499 then some (i + 1, acc / 500) else none
      let acc' := if i % 500 = 499 then 0 else acc
      let next := convEpoch upd (i + 1) acc' (upd i params) rest
      (⟨i, params, ce, loss, traceSkel loss, pr⟩ :: next.1, next.2)

/-- The ConvNet notebook's full training loop: `current_loss = 0.0` at the
start of every epoch. -/
def convTraining (upd : Upd) : Params → List (List ℚ) → List (List IterRec) × Params
  | params, [] => ([], params)
  | params, e :: es =>
      let ep := convEpoch upd 0 0 params e
      let rest := convTraining upd ep.2.2 es
      (ep.1 :: rest.1, rest.2)

/-- Optimizer family used by a notebook. -/
inductive OptAlgo
  | adam
  | adamW
deriving DecidableEq

/-- Optimizer configuration as written in a notebook's construction call:
the algorithm, the learning rate, and the `weight_decay` argument when the
call passes one. -/
structure OptimConfig where
  algo : OptAlgo
  lr : ℚ
  weight_decay : Option ℚ
deriving DecidableEq

/-- L1 notebook: `torch.optim.AdamW(mlp.parameters(), lr=1e-4)`. -/
def l1Optim : OptimConfig := ⟨.adamW, 1 / 10000, none⟩

/-- Elastic-Net notebook: `torch.optim.AdamW(mlp.parameters(), lr=1e-4)`. -/
def enOptim : OptimConfig := ⟨.adamW, 1 / 10000, none⟩

/-- L2 notebook: `torch.optim.AdamW(mlp.parameters(), lr=1e-4)`. -/
def l2Optim : OptimConfig := ⟨.adamW, 1 / 10000, none⟩

/-- Dropout notebook:
`torch.optim.AdamW(mlp.parameters(), lr=1e-4, weight_decay=1.0)`. -/
def dropoutOptim : OptimConfig := ⟨.adamW, 1 / 10000, some 1⟩

/-- ConvNet notebook: `torch.optim.Adam(convnet.parameters(), lr=1e-4)`. -/
def convOptim : OptimConfig := ⟨.adam, 1 / 10000, none⟩

/-! Shape semantics of the layer stacks (for the ConvNet notebook). -/

/-- Layers occurring in the ConvNet notebook's `nn.Sequential` stack. -/
inductive Layer
  | conv2d (inC outC k : ℕ)
  | relu
  | flattenL
  | linear (inF outF : ℕ)
deriving DecidableEq

/-- Shape of the data flowing through the stack: a channels-by-height-by-width
image tensor, or a flat feature vector (per sample; the batch dimension is
carried unchanged by every layer). -/
inductive TShape
  | img (c h w : ℕ)
  | vec (n : ℕ)
deriving DecidableEq

/-- Shape behaviour of one layer, following PyTorch semantics: `nn.Conv2d`
with kernel size `k` and no padding requires matching input channels and
`k ≤ h`, `k ≤ w`, producing an `(h - k + 1) × (w - k + 1)` map; `nn.Flatten`
multiplies out the dimensions; `nn.Linear` requires the feature count to
match its in-features.  `none` is a shape mismatch. -/
def applyLayer : Layer → TShape → Option TShape
  | .conv2d inC outC k, .img c h w =>
      if c = inC ∧ 1 ≤ k ∧ k ≤ h ∧ k ≤ w then some (.img outC (h - k + 1) (w - k + 1))
      else none
  | .conv2d _ _ _, .vec _ => none
  | .relu, s => some s
  | .flattenL, .img c h w => some (.vec (c * h * w))
  | .flattenL, .vec n => some (.vec n)
  | .linear inF outF, .vec n => if n = inF then some (.vec outF) else none
  | .linear _ _, .img _ _ _ => none

/-- Shape of the output of a layer stack on a given input shape, `none` as
soon as any layer mismatches. -/
def forwardShape : List Layer → TShape → Option TShape
  | [], s => some s
  | l :: ls, s =>
      match applyLayer l s with
      | some s' => forwardShape ls s'
      | none => none

/-- The `ConvNet` stack of the Session 5 notebook:
`Conv2d(1, 10, kernel_size=3)`, `ReLU`, `Conv2d(10, 5, kernel_size=3)`,
`ReLU`, `Flatten`, `Linear(24 * 24 * 5, 64)`, `ReLU`, `Linear(64, 32)`,
`ReLU`, `Linear(32, 10)`. -/
def convNetLayers : List Layer :=
  [.conv2d 1 10 3, .relu, .conv2d 10 5 3, .relu, .flattenL,
   .linear (24 * 24 * 5) 64, .relu, .linear 64 32, .relu, .linear 32 10]

/-! Optimizer update rules for the weight-decay claim.  Modelled from the
spec: the optimizer update rules belong to the external framework and are
not part of the repository's code; the L2 notebook's closing markdown quotes
the framework documentation (`weight_decay (float, optional) – weight decay
(L2 penalty)`) and the spec glossary calls weight decay `optimizer-level
parameter shrinkage equivalent to L2 regularization`.  The updates are
modelled coordinatewise over exact rationals. -/

/-- Modelled from the spec: plain gradient-descent step on one coordinate,
`θ ← θ - lr * g`, the reference optimizer without weight decay. -/
def sgdStep (lr θ g : ℚ) : ℚ := θ - lr * g

/-- Modelled from the spec: gradient-descent step with weight decay `wd`,
which adds `wd * θ` to the gradient (the framework documentation's
`weight decay (L2 penalty)`): `θ ← θ - lr * (g + wd * θ)`. -/
def sgdDecayStep (lr wd θ g : ℚ) : ℚ := θ - lr * (g + wd * θ)

/-- Modelled from the spec: contribution of the L2 penalty `(wd / 2) * θ ^ 2`
to the gradient of the augmented loss, namely `wd * θ`. -/
def l2PenaltyGrad (wd θ : ℚ) : ℚ := wd * θ

/-- Modelled from the spec: the first Adam step from the fresh optimizer
state `m = v = 0`.  With bias correction, after one step the documented
algorithm has `mhat = g` and `vhat = g ^ 2`, so the update is exactly
`θ ← θ - lr * g / (|g| + eps)`, which is representable over ℚ. -/
def adamFirstStep (lr eps θ g : ℚ) : ℚ := θ - lr * (g / (|g| + eps))

/-- Modelled from the spec: the first AdamW step from the fresh optimizer
state.  The documented AdamW algorithm decouples the decay: it first scales
the parameter, `θ ← θ - lr * wd * θ`, and then applies the Adam update
computed from the gradient of the unaugmented loss. -/
def adamwFirstStep (lr wd eps θ g : ℚ) : ℚ := θ - lr * wd * θ - lr * (g / (|g| + eps))

/-! Basic facts about the penalty functions. -/

/-- Sum over a mapped list as a `Fin`-indexed sum. -/
lemma sum_map_eq_fin_sum (w : List ℚ) (f : ℚ → ℚ) :
    (w.map f).sum = ∑ j : Fin w.length, f (w.get j) := by
  induction w with
  | nil => simp
  | cons x xs ih =>
      simp only [List.map_cons, List.sum_cons, List.length_cons, Fin.sum_univ_succ,
        List.get_cons_zero, List.get_cons_succ]
      rw [ih]
      exact congrArg (fun s => f x + s) (Finset.sum_congr rfl (fun j _ => rfl))

/-- Records of one L1 epoch: the backpropagated loss is the cross-entropy
value plus the L1 penalty of the concatenated parameters, the trace is the
standard skeleton, and a statistics line carrying the current loss appears
exactly when `i % 500 == 499`. -/
lemma l1Epoch_mem (upd : Upd) (ces : List ℚ) :
    ∀ (i : ℕ) (params : Params) (r : IterRec), r ∈ (l1Epoch upd i params ces).1 →
      r.loss = r.ce + 1 * MLP.compute_l1_loss r.paramsBefore.flatten ∧
      r.trace = traceSkel r.loss ∧
      r.printed = (if r.idx % 500 = 499 then some (r.idx + 1, r.loss) else none) := by
  induction ces with
  | nil => intro i params r h; rw [l1Epoch] at h; exact absurd h (List.not_mem_nil r)
  | cons ce rest ih =>
      intro i params r h
      rw [l1Epoch] at h
      rcases List.mem_cons.mp h with h | h
      · subst h; exact ⟨rfl, rfl, rfl⟩
      · exact ih (i + 1) (upd i params) r h

/-- Records of the full L1 training run satisfy the per-iteration facts. -/
lemma l1Training_mem (upd : Upd) (es : List (List ℚ)) :
    ∀ (params : Params) (r : IterRec), r ∈ ((l1Training upd params es).1).flatten →
      r.loss = r.ce + 1 * MLP.compute_l1_loss r.paramsBefore.flatten ∧
      r.trace = traceSkel r.loss ∧
      r.printed = (if r.idx % 500 = 499 then some (r.idx + 1, r.loss) else none) := by
  induction es with
  | nil => intro params r h; rw [l1Training] at h; simp at h
  | cons e es ih =>
      intro params r h
      rw [l1Training] at h
      rw [List.flatten_cons] at h
      rcases List.mem_append.mp h with h | h
      · exact l1Epoch_mem upd e 0 params r h
      · exact ih _ r h

/-- Records of one Elastic-Net epoch. -/
lemma enEpoch_mem (upd : Upd) (ces : List ℚ) :
    ∀ (i : ℕ) (params : Params) (r : IterRec), r ∈ (enEpoch upd i params ces).1 →
      r.loss = r.ce + (3 / 10 * MLP.compute_l1_loss r.paramsBefore.flatten
          + 7 / 10 * MLP.compute_l2_loss r.paramsBefore.flatten) ∧
      r.trace = traceSkel r.loss ∧
      r.printed = (if r.idx % 500 = 499 then some (r.idx + 1, r.loss) else none) := by
  induction ces with
  | nil => intro i params r h; rw [enEpoch] at h; exact absurd h (List.not_mem_nil r)
  | cons ce rest ih =>
      intro i params r h
      rw [enEpoch] at h
      rcases List.mem_cons.mp h with h | h
      · subst h
        refine ⟨?_, rfl, rfl⟩
        show ce + 3 / 10 * MLP.compute_l1_loss params.flatten
            + 7 / 10 * MLP.compute_l2_loss params.flatten = _
        ring
      · exact ih (i + 1) (upd i params) r h

/-- Records of the full Elastic-Net training run. -/
lemma enTraining_mem (upd : Upd) (es : List (List ℚ)) :
    ∀ (params : Params) (r : IterRec), r ∈ ((enTraining upd params es).1).flatten →
      r.loss = r.ce + (3 / 10 * MLP.compute_l1_loss r.paramsBefore.flatten
          + 7 / 10 * MLP.compute_l2_loss r.paramsBefore.flatten) ∧
      r.trace = traceSkel r.loss ∧
      r.printed = (if r.idx % 500 = 499 then some (r.idx + 1, r.loss) else none) := by
  induction es with
  | nil => intro params r h; rw [enTraining] at h; simp at h
  | cons e es ih =>
      intro params r h
      rw [enTraining] at h
      rw [List.flatten_cons] at h
      rcases List.mem_append.mp h with h | h
      · exact enEpoch_mem upd e 0 params r h
      · exact ih _ r h

/-- Records of one L2 epoch. -/
lemma l2Epoch_mem (upd : Upd) (ces : List ℚ) :
    ∀ (i : ℕ) (params : Params) (r : IterRec), r ∈ (l2Epoch upd i params ces).1 →
      r.loss = r.ce + 1 * MLP.compute_l2_loss r.paramsBefore.flatten ∧
      r.trace = traceSkel r.loss ∧
      r.printed = (if r.idx % 500 = 499 then some (r.idx + 1, r.loss) else none) := by
  induction ces with
  | nil => intro i params r h; rw [l2Epoch] at h; exact absurd h (List.not_mem_nil r)
  | cons ce rest ih =>
      intro i params r h
      rw [l2Epoch] at h
      rcases List.mem_cons.mp h with h | h
      · subst h; exact ⟨rfl, rfl, rfl⟩
      · exact ih (i + 1) (upd i params) r h

/-- Records of the full L2 training run. -/
lemma l2Training_mem (upd : Upd) (es : List (List ℚ)) :
    ∀ (params : Params) (r : IterRec), r ∈ ((l2Training upd params es).1).flatten →
      r.loss = r.ce + 1 * MLP.compute_l2_loss r.paramsBefore.flatten ∧
      r.trace = traceSkel r.loss ∧
      r.printed = (if r.idx % 500 = 499 then some (r.idx + 1, r.loss) else none) := by
  induction es with
  | nil => intro params r h; rw [l2Training] at h; simp at h
  | cons e es ih =>
      intro params r h
      rw [l2Training] at h
      rw [List.flatten_cons] at h
      rcases List.mem_append.mp h with h | h
      · exact l2Epoch_mem upd e 0 params r h
      · exact ih _ r h

/-- Records of one Dropout-notebook epoch: the backpropagated loss is the
plain cross-entropy value, the trace is the standard skeleton, and a
statistics line appears exactly when `i % 500 == 499`. -/
lemma dropoutEpoch_mem (upd : Upd) (ces : List ℚ) :
    ∀ (i : ℕ) (cl : ℚ) (params : Params) (r : IterRec),
      r ∈ (dropoutEpoch upd i cl params ces).1 →
      r.loss = r.ce ∧ r.trace = traceSkel r.loss ∧
      (r.printed.isSome ↔ r.idx % 500 = 499) := by
  induction ces with
  | nil => intro i cl params r h; rw [dropoutEpoch] at h; exact absurd h (List.not_mem_nil r)
  | cons ce rest ih =>
      intro i cl params r h
      rw [dropoutEpoch] at h
      rcases List.mem_cons.mp h with h | h
      · subst h
        refine ⟨rfl, rfl, ?_⟩
        by_cases hc : i % 500 = 499 <;> simp [hc]
      · exact ih (i + 1) _ (upd i params) r h

/-- Records of the full Dropout training run. -/
lemma dropoutTraining_mem (upd : Upd) (es : List (List ℚ)) :
    ∀ (params : Params) (r : IterRec), r ∈ ((dropoutTraining upd params es).1).flatten →
      r.loss = r.ce ∧ r.trace = traceSkel r.loss ∧
      (r.printed.isSome ↔ r.idx % 500 = 499) := by
  induction es with
  | nil => intro params r h; rw [dropoutTraining] at h; simp at h
  | cons e es ih =>
      intro params r h
      rw [dropoutTraining] at h
      rw [List.flatten_cons] at h
      rcases List.mem_append.mp h with h | h
      · exact dropoutEpoch_mem upd e 0 0 params r h
      · exact ih _ r h

/-- The ConvNet notebook's loop body coincides with the Dropout notebook's:
the two transcriptions define the same function. -/
lemma convEpoch_eq (upd : Upd) (ces : List ℚ) :
    ∀ (i : ℕ) (cl : ℚ) (params : Params),
      convEpoch upd i cl params ces = dropoutEpoch upd i cl params ces := by
  induction ces with
  | nil => intro i cl params; rw [convEpoch, dropoutEpoch]
  | cons ce rest ih =>
      intro i cl params
      rw [convEpoch, dropoutEpoch]
      rw [ih]

/-- The two accumulator-style training loops define the same function. -/
lemma convTraining_eq (upd : Upd) (es : List (List ℚ)) :
    ∀ (params : Params), convTraining upd params es = dropoutTraining upd params es := by
  induction es with
  | nil => intro params; rw [convTraining, dropoutTraining]
  | cons e es ih =>
      intro params
      rw [convTraining, dropoutTraining, convEpoch_eq]
      rw [ih]

/-- Records of the full ConvNet training run. -/
lemma convTraining_mem (upd : Upd) (es : List (List ℚ)) :
    ∀ (params : Params) (r : IterRec), r ∈ ((convTraining upd params es).1).flatten →
      r.loss = r.ce ∧ r.trace = traceSkel r.loss ∧
      (r.printed.isSome ↔ r.idx % 500 = 499) := by
  intro params r h
  rw [convTraining_eq] at h
  exact dropoutTraining_mem upd es params r h

/-- Claim C1: in the L1 regularization notebook, for every mini-batch
iteration of the training loop, the loss that is backpropagated equals the
cross-entropy loss of the forward pass plus `l1_weight` (1.0) times
`MLP.compute_l1_loss` applied to the concatenation of all flattened
trainable parameters, where `compute_l1_loss w` returns the sum of the
absolute values of the elements of `w`. -/
theorem c1_l1_backprop_loss (upd : Upd) (params : Params) (epochs : List (List ℚ))
    (r : IterRec) (h : r ∈ ((l1Training upd params epochs).1).flatten) :
    r.loss = r.ce + 1 * MLP.compute_l1_loss r.paramsBefore.flatten ∧
    Ev.backward (r.ce + 1 * MLP.compute_l1_loss r.paramsBefore.flatten) ∈ r.trace ∧
    MLP.compute_l1_loss r.paramsBefore.flatten
      = ∑ j : Fin r.paramsBefore.flatten.length, |r.paramsBefore.flatten.get j| := by
  obtain ⟨hl, ht, -⟩ := l1Training_mem upd epochs params r h
  refine ⟨hl, ?_, sum_map_eq_fin_sum _ _⟩
  rw [ht, ← hl]
  simp [traceSkel]

/-- Witness for C1 at a concrete one-batch run with parameters
`[[1, -2]]` and cross-entropy value `5`: the backpropagated loss is `8`. -/
theorem c1_l1_backprop_loss_witness :
    (8 : ℚ) = 5 + 1 * MLP.compute_l1_loss ([[1, -2]] : Params).flatten ∧
    Ev.backward ((5 : ℚ) + 1 * MLP.compute_l1_loss ([[1, -2]] : Params).flatten)
      ∈ traceSkel 8 := by
  have h := c1_l1_backprop_loss (fun _ p => p) [[1, -2]] [[5]]
      ⟨0, [[1, -2]], 5, 8, traceSkel 8, none⟩
      (by norm_num [l1Training, l1Epoch, MLP.compute_l1_loss, traceSkel])
  exact ⟨h.1, h.2.1⟩

/-- Claim C2: in the Elastic Net notebook, for every mini-batch iteration,
the penalty added to the cross-entropy loss before backpropagation is the
weighted combination `0.3 * compute_l1_loss(cat(params)) +
0.7 * compute_l2_loss(cat(params))` of the flattened model parameters. -/
theorem c2_elastic_net_penalty (upd : Upd) (params : Params) (epochs : List (List ℚ))
    (r : IterRec) (h : r ∈ ((enTraining upd params epochs).1).flatten) :
    r.loss = r.ce + (3 / 10 * MLP.compute_l1_loss r.paramsBefore.flatten
        + 7 / 10 * MLP.compute_l2_loss r.paramsBefore.flatten) ∧
    Ev.backward r.loss ∈ r.trace := by
  obtain ⟨hl, ht, -⟩ := enTraining_mem upd epochs params r h
  refine ⟨hl, ?_⟩
  rw [ht]
  simp [traceSkel]

/-- Witness for C2 at a concrete one-batch run with parameters `[[1, -2]]`
and cross-entropy value `5`: the loss is `5 + 0.3 * 3 + 0.7 * 5 = 47/5`. -/
theorem c2_elastic_net_penalty_witness :
    (47 / 5 : ℚ) = 5 + (3 / 10 * MLP.compute_l1_loss ([[1, -2]] : Params).flatten
        + 7 / 10 * MLP.compute_l2_loss ([[1, -2]] : Params).flatten) ∧
    Ev.backward (47 / 5 : ℚ) ∈ traceSkel (47 / 5) := by
  have h := c2_elastic_net_penalty (fun _ p => p) [[1, -2]] [[5]]
      ⟨0, [[1, -2]], 5, 47 / 5, traceSkel (47 / 5), none⟩
      (by norm_num [enTraining, enEpoch, MLP.compute_l1_loss, MLP.compute_l2_loss, traceSkel])
  exact ⟨h.1, h.2⟩

/-- Claim C6: in the L2 regularization notebook, `MLP.compute_l2_loss w`
returns the sum of the squares of the elements of `w`, and every mini-batch
iteration adds `l2_weight` (1.0) times `compute_l2_loss` of the concatenated
flattened parameters to the cross-entropy loss before backpropagation. -/
theorem c6_l2_backprop_loss (upd : Upd) (params : Params) (epochs : List (List ℚ))
    (r : IterRec) (h : r ∈ ((l2Training upd params epochs).1).flatten) :
    r.loss = r.ce + 1 * MLP.compute_l2_loss r.paramsBefore.flatten ∧
    Ev.backward (r.ce + 1 * MLP.compute_l2_loss r.paramsBefore.flatten) ∈ r.trace ∧
    MLP.compute_l2_loss r.paramsBefore.flatten
      = ∑ j : Fin r.paramsBefore.flatten.length, (r.paramsBefore.flatten.get j) ^ 2 := by
  obtain ⟨hl, ht, -⟩ := l2Training_mem upd epochs params r h
  refine ⟨hl, ?_, sum_map_eq_fin_sum _ _⟩
  rw [ht, ← hl]
  simp [traceSkel]

/-- Witness for C6 at a concrete one-batch run with parameters `[[1, -2]]`
and cross-entropy value `5`: the backpropagated loss is `10`. -/
theorem c6_l2_backprop_loss_witness :
    (10 : ℚ) = 5 + 1 * MLP.compute_l2_loss ([[1, -2]] : Params).flatten ∧
    Ev.backward ((5 : ℚ) + 1 * MLP.compute_l2_loss ([[1, -2]] : Params).flatten)
      ∈ traceSkel 10 := by
  have h := c6_l2_backprop_loss (fun _ p => p) [[1, -2]] [[5]]
      ⟨0, [[1, -2]], 5, 10, traceSkel 10, none⟩
      (by norm_num [l2Training, l2Epoch, MLP.compute_l2_loss, traceSkel])
  exact ⟨h.1, h.2.1⟩

/-- Claim C3: in every notebook's training loop, each mini-batch iteration
performs, in this order with no step skipped or reordered: zero the
gradients, forward pass, compute the loss (penalty included where the
notebook adds one), backward pass, optimizer step.  The trace of every
iteration record of every run is exactly `traceSkel`. -/
theorem c3_loop_order (upd : Upd) (params : Params) (epochs : List (List ℚ)) (r : IterRec) :
    (r ∈ ((l1Training upd params epochs).1).flatten → r.trace = traceSkel r.loss) ∧
    (r ∈ ((enTraining upd params epochs).1).flatten → r.trace = traceSkel r.loss) ∧
    (r ∈ ((l2Training upd params epochs).1).flatten → r.trace = traceSkel r.loss) ∧
    (r ∈ ((dropoutTraining upd params epochs).1).flatten → r.trace = traceSkel r.loss) ∧
    (r ∈ ((convTraining upd params epochs).1).flatten → r.trace = traceSkel r.loss) := by
  refine ⟨fun h => ?_, fun h => ?_, fun h => ?_, fun h => ?_, fun h => ?_⟩
  · exact (l1Training_mem upd epochs params r h).2.1
  · exact (enTraining_mem upd epochs params r h).2.1
  · exact (l2Training_mem upd epochs params r h).2.1
  · exact (dropoutTraining_mem upd epochs params r h).2.1
  · exact (convTraining_mem upd epochs params r h).2.1

/-- Witness for C3: the single record of a concrete one-batch L1 run has
exactly the five-step trace. -/
theorem c3_loop_order_witness :
    traceSkel (8 : ℚ)
      = [Ev.zeroGrad, Ev.forwardPass, Ev.computeLoss 8, Ev.backward 8, Ev.optStep] := by
  have h := (c3_loop_order (fun _ p => p) [[1, -2]] [[5]]
      ⟨0, [[1, -2]], 5, 8, traceSkel 8, none⟩).1
      (by norm_num [l1Training, l1Epoch, MLP.compute_l1_loss, traceSkel])
  exact h

/-- Claim C8: for single-channel 28x28 inputs, the ConvNet stack is
shape-safe: the two kernel-size-3 convolutions produce 26x26 then 24x24
feature maps with 5 output channels, Flatten yields 24 * 24 * 5 = 2880
features, matching the in-features of the first Linear layer, and the
network outputs exactly 10 values per sample. -/
theorem c8_convnet_shapes :
    forwardShape convNetLayers (.img 1 28 28) = some (.vec 10) ∧
    applyLayer (.conv2d 1 10 3) (.img 1 28 28) = some (.img 10 26 26) ∧
    applyLayer (.conv2d 10 5 3) (.img 10 26 26) = some (.img 5 24 24) ∧
    applyLayer .flattenL (.img 5 24 24) = some (.vec (24 * 24 * 5)) ∧
    24 * 24 * 5 = 2880 ∧
    convNetLayers[5]? = some (.linear 2880 64) := by
  decide

/-- Claim C9: the L1 and L2 penalties of the concatenation of a list of
flattened parameter tensors equal the sums of the per-tensor penalties, and
the penalty of the concatenation is invariant under permuting the tensors. -/
theorem c9_penalty_additive (ps qs : List Tensor) :
    MLP.compute_l1_loss ps.flatten = (ps.map MLP.compute_l1_loss).sum ∧
    MLP.compute_l2_loss ps.flatten = (ps.map MLP.compute_l2_loss).sum ∧
    (ps.Perm qs →
      MLP.compute_l1_loss ps.flatten = MLP.compute_l1_loss qs.flatten ∧
      MLP.compute_l2_loss ps.flatten = MLP.compute_l2_loss qs.flatten) := by
  have key : ∀ (f : ℚ → ℚ) (l : List Tensor),
      ((l.flatten).map f).sum = (l.map (fun t => (t.map f).sum)).sum := by
    intro f l
    rw [List.map_flatten, List.sum_flatten, List.map_map]
    rfl
  refine ⟨key _ ps, key _ ps, fun hp => ⟨?_, ?_⟩⟩
  · show ((ps.flatten).map (fun x => |x|)).sum = ((qs.flatten).map (fun x => |x|)).sum
    rw [key, key]
    exact List.Perm.sum_eq (hp.map _)
  · show ((ps.flatten).map (fun x => x ^ 2)).sum = ((qs.flatten).map (fun x => x ^ 2)).sum
    rw [key, key]
    exact List.Perm.sum_eq (hp.map _)

/-- Witness for C9: concatenating `[[1, -2], [3]]` in either order gives the
same L1 and L2 penalties. -/
theorem c9_penalty_additive_witness :
    MLP.compute_l1_loss ([[1, -2], [3]] : List Tensor).flatten
        = MLP.compute_l1_loss ([[3], [1, -2]] : List Tensor).flatten ∧
    MLP.compute_l2_loss ([[1, -2], [3]] : List Tensor).flatten
        = MLP.compute_l2_loss ([[3], [1, -2]] : List Tensor).flatten :=
  (c9_penalty_additive [[1, -2], [3]] [[3], [1, -2]]).2.2
    (List.Perm.swap [3] [1, -2] [])

/-- Claim C7, amended: for plain gradient descent, one step with weight
decay `wd` equals one step without weight decay on the loss augmented with
the L2 penalty `(wd / 2) * θ ^ 2`, whose gradient contribution is
`l2PenaltyGrad wd θ = wd * θ` (exact first-order expansion shown); AdamW's
`weight_decay` instead performs the decoupled shrinkage
`θ ← (1 - lr * wd) * θ` before the adaptive update. -/
theorem c7_weight_decay_amended (lr wd eps θ g d : ℚ) :
    sgdDecayStep lr wd θ g = sgdStep lr θ (g + l2PenaltyGrad wd θ) ∧
    wd / 2 * (θ + d) ^ 2 - wd / 2 * θ ^ 2 = l2PenaltyGrad wd θ * d + wd / 2 * d ^ 2 ∧
    adamwFirstStep lr wd eps θ g = (1 - lr * wd) * θ - lr * (g / (|g| + eps)) := by
  refine ⟨?_, ?_, ?_⟩ <;>
    simp only [sgdDecayStep, sgdStep, l2PenaltyGrad, adamwFirstStep] <;> ring

/-- Counterexample for C7 as stated: with learning rate `1e-4`,
`weight_decay = 1.0` and `eps = 1e-8`, one AdamW step from the fresh state
at parameter `1` with gradient `0` yields `0.9999`, while one Adam step
without weight decay on the loss augmented with the L2 penalty (sum of
squared parameters, gradient `2θ = 2`) yields `1 - (1/10^4) * 2 / (2 + 1e-8)`;
the two differ. -/
theorem c7_counterexample :
    adamwFirstStep (1 / 10000) 1 (1 / 100000000) 1 0
      ≠ adamFirstStep (1 / 10000) (1 / 100000000) 1 (0 + 2 * 1) := by
  norm_num [adamwFirstStep, adamFirstStep]

/-! Closed form of the accumulator-style statistics. -/

/-- L1 penalty of the empty parameter list. -/
@[simp] lemma compute_l1_loss_nil : MLP.compute_l1_loss [] = 0 := rfl

/-- L2 penalty of the empty parameter list. -/
@[simp] lemma compute_l2_loss_nil : MLP.compute_l2_loss [] = 0 := rfl

/-- Splitting a Dropout-notebook epoch at a batch boundary. -/
lemma dropoutEpoch_append (upd : Upd) (xs ys : List ℚ) :
    ∀ (i : ℕ) (cl : ℚ) (params : Params),
      dropoutEpoch upd i cl params (xs ++ ys)
        = ((dropoutEpoch upd i cl params xs).1
             ++ (dropoutEpoch upd (i + xs.length) (dropoutEpoch upd i cl params xs).2.1
                  (dropoutEpoch upd i cl params xs).2.2 ys).1,
           (dropoutEpoch upd (i + xs.length) (dropoutEpoch upd i cl params xs).2.1
              (dropoutEpoch upd i cl params xs).2.2 ys).2) := by
  induction xs with
  | nil => intro i cl params; simp [dropoutEpoch]
  | cons x xs ih =>
      intro i cl params
      simp only [List.cons_append, dropoutEpoch, List.length_cons, List.append_eq]
      rw [ih]
      have harith : i + 1 + xs.length = i + (xs.length + 1) := by omega
      rw [harith]

/-- An epoch fragment that ends exactly at a statistics boundary prints one
line, carrying the accumulated loss divided by 500, and leaves the
accumulator at zero. -/
lemma dropoutEpoch_chunk (upd : Upd) (xs : List ℚ) :
    ∀ (i : ℕ) (cl : ℚ) (params : Params), i % 500 + xs.length = 500 →
      printsOf (dropoutEpoch upd i cl params xs).1
          = [(i + xs.length, (cl + xs.sum) / 500)] ∧
      (dropoutEpoch upd i cl params xs).2.1 = 0 := by
  induction xs with
  | nil => intro i cl params hlen; simp at hlen; omega
  | cons x xs ih =>
      intro i cl params hlen
      rw [dropoutEpoch]
      cases xs with
      | nil =>
          have hi : i % 500 = 499 := by simp at hlen; omega
          rw [dropoutEpoch]
          simp [printsOf, hi]
      | cons y ys =>
          have hi : i % 500 ≠ 499 := by simp at hlen; omega
          have hstep : (i + 1) % 500 = i % 500 + 1 := by omega
          have hlen' : (i + 1) % 500 + (y :: ys).length = 500 := by
            simp at hlen ⊢; omega
          obtain ⟨hp, ha⟩ := ih (i + 1) (cl + x) (upd i params) hlen'
          rw [if_neg hi, if_neg hi] at *
          constructor
          · simp only [printsOf, List.filterMap_cons]
            simp only [printsOf] at hp
            rw [hp]
            have h1 : i + 1 + (y :: ys).length = i + (y :: ys).length + 1 := by omega
            have h2 : cl + x + (y :: ys).sum = cl + (x :: y :: ys).sum := by
              simp; ring
            rw [h1, h2]
            simp
            omega
          · exact ha

/-- An epoch fragment too short to reach the next statistics boundary prints
nothing. -/
lemma dropoutEpoch_small (upd : Upd) (xs : List ℚ) :
    ∀ (i : ℕ) (cl : ℚ) (params : Params), i % 500 + xs.length < 500 →
      printsOf (dropoutEpoch upd i cl params xs).1 = [] := by
  induction xs with
  | nil => intro i cl params _; rw [dropoutEpoch]; rfl
  | cons x xs ih =>
      intro i cl params hlen
      rw [dropoutEpoch]
      have hi : i % 500 ≠ 499 := by simp at hlen; omega
      have hlen' : (i + 1) % 500 + xs.length < 500 := by simp at hlen; omega
      rw [if_neg hi, if_neg hi]
      simp only [printsOf, List.filterMap_cons]
      simpa [printsOf] using ih (i + 1) (cl + x) (upd i params) hlen'

set_option maxRecDepth 4000 in
/-- Closed form of the statistics lines of one accumulator-style epoch
starting at a batch index that is a multiple of 500 with accumulator zero:
one line per full 500-batch chunk, carrying that chunk's summed loss divided
by 500. -/
lemma dropoutEpoch_prints (upd : Upd) :
    ∀ (n : ℕ) (ces : List ℚ), ces.length = n → ∀ (k : ℕ) (params : Params),
      printsOf (dropoutEpoch upd (500 * k) 0 params ces).1
        = (List.range (n / 500)).map
            (fun j => (500 * k + 500 * (j + 1), ((ces.drop (500 * j)).take 500).sum / 500)) := by
  intro n
  induction n using Nat.strong_induction_on with
  | _ n ihn =>
    intro ces hlen k params
    by_cases hsmall : n < 500
    · rw [dropoutEpoch_small upd ces (500 * k) 0 params (by omega)]
      rw [Nat.div_eq_of_lt hsmall]
      simp
    · have hsplit : ces.take 500 ++ ces.drop 500 = ces := List.take_append_drop 500 ces
      have hlen1 : (ces.take 500).length = 500 := by
        rw [List.length_take]; omega
      obtain ⟨hp1, ha1⟩ := dropoutEpoch_chunk upd (ces.take 500) (500 * k) 0 params
        (by rw [hlen1]; omega)
      have hlen2 : (ces.drop 500).length = n - 500 := by
        rw [List.length_drop]; omega
      have hrec := ihn (n - 500) (by omega) (ces.drop 500) hlen2 (k + 1)
        (dropoutEpoch upd (500 * k) 0 params (ces.take 500)).2.2
      simp only [printsOf] at hp1 hrec ⊢
      conv_lhs => rw [← hsplit]
      rw [dropoutEpoch_append]
      simp only [List.filterMap_append]
      rw [hp1, ha1, hlen1]
      have hk1 : 500 * k + 500 = 500 * (k + 1) := by ring
      rw [hk1, hrec]
      have hdiv : n / 500 = (n - 500) / 500 + 1 := by omega
      rw [hdiv, List.range_succ_eq_map]
      rw [List.map_cons, List.map_map]
      rw [List.singleton_append]
      congr 1
      · have e2 : List.drop (500 * 0) ces = ces := by
          rw [show 500 * 0 = 0 from rfl, List.drop_zero]
        rw [e2, zero_add]
        have e1 : 500 * (k + 1) = 500 * k + 500 * (0 + 1) := by ring
        rw [e1]
      · apply List.map_congr_left
        intro j _
        simp only [Function.comp_apply, Nat.succ_eq_add_one]
        rw [List.drop_drop]
        have h5 : 500 + 500 * j = 500 * (j + 1) := by ring
        have h6 : 500 * (k + 1) + 500 * (j + 1) = 500 * k + 500 * (j + 1 + 1) := by ring
        rw [h5, h6]

/-- Per-iteration losses of one Dropout-notebook epoch are exactly the
cross-entropy values of its batches. -/
lemma dropoutEpoch_losses (upd : Upd) (ces : List ℚ) :
    ∀ (i : ℕ) (cl : ℚ) (params : Params),
      ((dropoutEpoch upd i cl params ces).1).map IterRec.loss = ces := by
  induction ces with
  | nil => intro i cl params; rw [dropoutEpoch]; rfl
  | cons ce rest ih =>
      intro i cl params
      rw [dropoutEpoch, List.map_cons]
      rw [ih]

/-- Per-epoch loss streams of the full Dropout training run. -/
lemma dropoutTraining_losses (upd : Upd) (es : List (List ℚ)) :
    ∀ (params : Params),
      ((dropoutTraining upd params es).1).map (fun recs => recs.map IterRec.loss) = es := by
  induction es with
  | nil => intro params; rw [dropoutTraining]; rfl
  | cons e es ih =>
      intro params
      rw [dropoutTraining, List.map_cons, dropoutEpoch_losses]
      rw [ih]

/-- Per-epoch statistics lines of the full Dropout training run: each epoch
prints one line per full 500-batch chunk of its own batches, carrying that
chunk's summed loss divided by 500. -/
lemma dropoutTraining_prints (upd : Upd) (es : List (List ℚ)) :
    ∀ (params : Params),
      ((dropoutTraining upd params es).1).map printsOf
        = es.map (fun ces => (List.range (ces.length / 500)).map
            (fun j => (500 * (j + 1), ((ces.drop (500 * j)).take 500).sum / 500))) := by
  induction es with
  | nil => intro params; rw [dropoutTraining]; rfl
  | cons e es ih =>
      intro params
      rw [dropoutTraining, List.map_cons, List.map_cons]
      have h0 := dropoutEpoch_prints upd e.length e rfl 0 params
      rw [show 500 * 0 = 0 from rfl] at h0
      rw [h0, ih]
      have : ∀ j : ℕ, 500 * 0 + 500 * (j + 1) = 500 * (j + 1) := by intro j; ring
      simp only [this]

/-- Claim C10: in the Dropout and ConvNet training loops, the accumulator is
zeroed at the start of every epoch and immediately after every print, so
each epoch's per-iteration losses are its own batch losses, and every
printed figure is the sum of the losses of exactly the 500 mini-batches
since the previous reset, divided by 500, with no carry across prints or
epochs. -/
theorem c10_accumulator_chunks (upd : Upd) (params : Params) (es : List (List ℚ)) :
    ((dropoutTraining upd params es).1).map (fun recs => recs.map IterRec.loss) = es ∧
    ((dropoutTraining upd params es).1).map printsOf
      = es.map (fun ces => (List.range (ces.length / 500)).map
          (fun j => (500 * (j + 1), ((ces.drop (500 * j)).take 500).sum / 500))) ∧
    ((convTraining upd params es).1).map (fun recs => recs.map IterRec.loss) = es ∧
    ((convTraining upd params es).1).map printsOf
      = es.map (fun ces => (List.range (ces.length / 500)).map
          (fun j => (500 * (j + 1), ((ces.drop (500 * j)).take 500).sum / 500))) := by
  refine ⟨dropoutTraining_losses upd es params, dropoutTraining_prints upd es params, ?_, ?_⟩
  · rw [convTraining_eq]; exact dropoutTraining_losses upd es params
  · rw [convTraining_eq]; exact dropoutTraining_prints upd es params

/-- Element of a replicated list. -/
lemma getD_replicate_self (a d : ℚ) : ∀ (n m : ℕ), m < n → (List.replicate n a).getD m d = a := by
  intro n
  induction n with
  | zero => intro m h; omega
  | succ n ih =>
      intro m h
      cases m with
      | zero => rw [List.replicate_succ]; rfl
      | succ m =>
          rw [List.replicate_succ, List.getD_cons_succ]
          exact ih m (by omega)

/-- With an empty parameter list (penalty zero) and an update that fixes it,
an L1-notebook epoch fragment ending exactly at a statistics boundary prints
one line carrying the loss of its last mini-batch alone. -/
lemma l1Epoch_nil_chunk (xs : List ℚ) :
    ∀ (i : ℕ), i % 500 + xs.length = 500 →
      printsOf (l1Epoch (fun _ p => p) i [] xs).1
        = [(i + xs.length, xs.getD (xs.length - 1) 0)] := by
  induction xs with
  | nil => intro i h; simp at h; omega
  | cons x xs ih =>
      intro i h
      rw [l1Epoch]
      cases xs with
      | nil =>
          have hi : i % 500 = 499 := by simp at h; omega
          rw [l1Epoch]
          simp [printsOf, hi, MLP.compute_l1_loss]
      | cons y ys =>
          have hi : i % 500 ≠ 499 := by simp at h; omega
          have h' : (i + 1) % 500 + (y :: ys).length = 500 := by
            simp at h ⊢; omega
          rw [if_neg hi]
          simp only [printsOf, List.filterMap_cons]
          have hrec := ih (i + 1) h'
          simp only [printsOf] at hrec
          rw [hrec]
          have h1 : i + 1 + (y :: ys).length = i + (x :: y :: ys).length := by
            simp; omega
          rw [h1]
          rfl

/-- With an empty parameter list and an update fixing it, the per-iteration
losses of an L1-notebook epoch are exactly its cross-entropy values. -/
lemma l1Epoch_nil_losses (xs : List ℚ) :
    ∀ (i : ℕ), ((l1Epoch (fun _ p => p) i [] xs).1).map IterRec.loss = xs := by
  induction xs with
  | nil => intro i; rw [l1Epoch]; rfl
  | cons x xs ih =>
      intro i
      rw [l1Epoch, List.map_cons]
      rw [ih]
      simp [MLP.compute_l1_loss]

/-- Claim C5, amended: every notebook prints exactly when `i % 500 == 499`;
in the Dropout and ConvNet notebooks the printed figure is the loss
accumulated since the previous print divided by 500, while in the L1, L2 and
Elastic Net notebooks the printed figure is the current mini-batch's loss
alone. -/
theorem c5_statistics_amended (upd : Upd) (params : Params) (epochs : List (List ℚ))
    (r : IterRec) :
    (r ∈ ((l1Training upd params epochs).1).flatten →
        r.printed = (if r.idx % 500 = 499 then some (r.idx + 1, r.loss) else none)) ∧
    (r ∈ ((enTraining upd params epochs).1).flatten →
        r.printed = (if r.idx % 500 = 499 then some (r.idx + 1, r.loss) else none)) ∧
    (r ∈ ((l2Training upd params epochs).1).flatten →
        r.printed = (if r.idx % 500 = 499 then some (r.idx + 1, r.loss) else none)) ∧
    (r ∈ ((dropoutTraining upd params epochs).1).flatten →
        (r.printed.isSome ↔ r.idx % 500 = 499)) ∧
    (r ∈ ((convTraining upd params epochs).1).flatten →
        (r.printed.isSome ↔ r.idx % 500 = 499)) ∧
    ((dropoutTraining upd params epochs).1).map printsOf
      = epochs.map (fun ces => (List.range (ces.length / 500)).map
          (fun j => (500 * (j + 1), ((ces.drop (500 * j)).take 500).sum / 500))) ∧
    ((convTraining upd params epochs).1).map printsOf
      = epochs.map (fun ces => (List.range (ces.length / 500)).map
          (fun j => (500 * (j + 1), ((ces.drop (500 * j)).take 500).sum / 500))) := by
  refine ⟨fun h => (l1Training_mem upd epochs params r h).2.2,
    fun h => (enTraining_mem upd epochs params r h).2.2,
    fun h => (l2Training_mem upd epochs params r h).2.2,
    fun h => (dropoutTraining_mem upd epochs params r h).2.2,
    fun h => (convTraining_mem upd epochs params r h).2.2,
    dropoutTraining_prints upd epochs params, ?_⟩
  rw [convTraining_eq]
  exact dropoutTraining_prints upd epochs params

/-- Witness for C5 (amended) at a concrete one-batch L1 run: the record at
batch index 0 prints nothing. -/
theorem c5_statistics_amended_witness :
    (none : Option (ℕ × ℚ)) = (if 0 % 500 = 499 then some (0 + 1, (8 : ℚ)) else none) := by
  have h := (c5_statistics_amended (fun _ p => p) [[1, -2]] [[5]]
      ⟨0, [[1, -2]], 5, 8, traceSkel 8, none⟩).1
      (by norm_num [l1Training, l1Epoch, MLP.compute_l1_loss, traceSkel])
  exact h

/-- Concrete per-batch cross-entropy stream used by the counterexamples: 500
mini-batches with losses `2, 1, 1, ..., 1`. -/
def ceStream : List ℚ := (2 : ℚ) :: List.replicate 499 1

/-- The stream has exactly 500 batches. -/
lemma ceStream_length : ceStream.length = 500 := by
  rw [ceStream]
  rw [List.length_cons, List.length_replicate]

/-- Statistics lines of the L1 run on `ceStream` with empty (penalty-inert)
parameters: one line carrying the loss of mini-batch 500 alone, namely `1`. -/
lemma l1_ceStream_prints :
    printsOf (((l1Training (fun _ p => p) [] [ceStream]).1).flatten) = [(500, 1)] := by
  have hflat : ((l1Training (fun _ p => p) [] [ceStream]).1).flatten
      = (l1Epoch (fun _ p => p) 0 [] ceStream).1 := by
    simp only [l1Training, List.flatten_cons, List.flatten_nil, List.append_nil]
  rw [hflat]
  rw [l1Epoch_nil_chunk ceStream 0 (by rw [ceStream_length])]
  rw [ceStream_length, ceStream]
  rw [show (500 : ℕ) - 1 = 498 + 1 from rfl, List.getD_cons_succ]
  rw [getD_replicate_self _ _ 499 498 (by omega)]

/-- Statistics lines of the Dropout run on `ceStream`: one line carrying the
average of all 500 losses, namely `501 / 500`. -/
lemma dropout_ceStream_prints :
    printsOf (((dropoutTraining (fun _ p => p) [] [ceStream]).1).flatten)
      = [(500, 501 / 500)] := by
  have hflat : ((dropoutTraining (fun _ p => p) [] [ceStream]).1).flatten
      = (dropoutEpoch (fun _ p => p) 0 0 [] ceStream).1 := by
    simp only [dropoutTraining, List.flatten_cons, List.flatten_nil, List.append_nil]
  rw [hflat]
  have h := dropoutEpoch_prints (fun _ p => p) 500 ceStream ceStream_length 0 []
  rw [show 500 * 0 = 0 from rfl] at h
  rw [h]
  rw [show (500 : ℕ) / 500 = 1 from rfl, show List.range 1 = [0] by decide]
  rw [List.map_cons, List.map_nil]
  have hdrop : ceStream.drop (500 * 0) = ceStream := by
    rw [show 500 * 0 = 0 from rfl, List.drop_zero]
  rw [hdrop]
  have htake : ceStream.take 500 = ceStream := by
    apply List.take_of_length_le
    rw [ceStream_length]
  rw [htake]
  have hsum : ceStream.sum = 501 := by
    rw [ceStream]
    rw [List.sum_cons, List.sum_replicate, nsmul_eq_mul]
    norm_num
  rw [hsum]

/-- Counterexample for C5 as stated: on the same loss stream (empty
parameters make the L1 penalty vanish, so the two runs backpropagate
identical per-iteration losses), the L1 notebook prints the current
mini-batch's loss `1`, not the figure `501 / 500` accumulated since the
previous print; the printed statistics differ. -/
theorem c5_counterexample :
    printsOf (((l1Training (fun _ p => p) [] [ceStream]).1).flatten) = [(500, 1)] ∧
    printsOf (((dropoutTraining (fun _ p => p) [] [ceStream]).1).flatten)
      = [(500, 501 / 500)] ∧
    (((l1Training (fun _ p => p) [] [ceStream]).1).flatten).map IterRec.loss
      = (((dropoutTraining (fun _ p => p) [] [ceStream]).1).flatten).map IterRec.loss ∧
    printsOf (((l1Training (fun _ p => p) [] [ceStream]).1).flatten)
      ≠ printsOf (((dropoutTraining (fun _ p => p) [] [ceStream]).1).flatten) := by
  have hl := l1_ceStream_prints
  have hd := dropout_ceStream_prints
  refine ⟨hl, hd, ?_, ?_⟩
  · have h1 : ((l1Training (fun _ p => p) [] [ceStream]).1).flatten
        = (l1Epoch (fun _ p => p) 0 [] ceStream).1 := by
      simp only [l1Training, List.flatten_cons, List.flatten_nil, List.append_nil]
    have h2 : ((dropoutTraining (fun _ p => p) [] [ceStream]).1).flatten
        = (dropoutEpoch (fun _ p => p) 0 0 [] ceStream).1 := by
      simp only [dropoutTraining, List.flatten_cons, List.flatten_nil, List.append_nil]
    rw [h1, h2, l1Epoch_nil_losses, dropoutEpoch_losses]
  · rw [hl, hd]
    intro hcontra
    have := List.cons.inj hcontra
    have hfig : (1 : ℚ) = 501 / 500 := congrArg Prod.snd this.1
    norm_num at hfig

/-! Skeleton comparison of the four regularization notebooks' loops. -/

/-- Regularization-independent skeleton of an iteration record: batch index,
parameters, cross-entropy value, the kinds of the framework calls made, and
whether a statistics line was printed. -/
def skeletonOf (recs : List IterRec) : List (ℕ × Params × ℚ × List EvKind × Bool) :=
  recs.map (fun r => (r.idx, r.paramsBefore, r.ce, r.trace.map Ev.kind, r.printed.isSome))

/-- The common skeleton shared by all the notebooks' epochs. -/
def commonSkel (upd : Upd) : ℕ → Params → List ℚ → List (ℕ × Params × ℚ × List EvKind × Bool)
  | _, _, [] => []
  | i, params, ce :: rest =>
      (i, params, ce, [EvKind.zeroK, EvKind.forwardK, EvKind.lossK, EvKind.backwardK,
        EvKind.stepK], i % 500 == 499) :: commonSkel upd (i + 1) (upd i params) rest

/-- Parameter evolution common to every loop: fold the abstract optimizer
update over the batches. -/
def updFold (upd : Upd) : ℕ → Params → List ℚ → Params
  | _, params, [] => params
  | i, params, _ :: rest => updFold upd (i + 1) (upd i params) rest

/-- The common skeleton of a full training run. -/
def commonTrainingSkel (upd : Upd) : Params → List (List ℚ) → List (List (ℕ × Params × ℚ × List EvKind × Bool))
  | _, [] => []
  | params, e :: es =>
      commonSkel upd 0 params e :: commonTrainingSkel upd (updFold upd 0 params e) es

/-- Skeleton of an empty record list. -/
@[simp] lemma skeletonOf_nil : skeletonOf [] = [] := rfl

/-- Skeleton of a record cons. -/
lemma skeletonOf_cons (r : IterRec) (l : List IterRec) :
    skeletonOf (r :: l)
      = (r.idx, r.paramsBefore, r.ce, r.trace.map Ev.kind, r.printed.isSome) :: skeletonOf l :=
  rfl

/-- Final parameters of an L1 epoch are the folded updates. -/
lemma l1Epoch_final (upd : Upd) (ces : List ℚ) :
    ∀ (i : ℕ) (params : Params), (l1Epoch upd i params ces).2 = updFold upd i params ces := by
  induction ces with
  | nil => intro i params; rw [l1Epoch, updFold]
  | cons ce rest ih =>
      intro i params
      rw [l1Epoch, updFold]
      exact ih (i + 1) (upd i params)

/-- Final parameters of an Elastic-Net epoch. -/
lemma enEpoch_final (upd : Upd) (ces : List ℚ) :
    ∀ (i : ℕ) (params : Params), (enEpoch upd i params ces).2 = updFold upd i params ces := by
  induction ces with
  | nil => intro i params; rw [enEpoch, updFold]
  | cons ce rest ih =>
      intro i params
      rw [enEpoch, updFold]
      exact ih (i + 1) (upd i params)

/-- Final parameters of an L2 epoch. -/
lemma l2Epoch_final (upd : Upd) (ces : List ℚ) :
    ∀ (i : ℕ) (params : Params), (l2Epoch upd i params ces).2 = updFold upd i params ces := by
  induction ces with
  | nil => intro i params; rw [l2Epoch, updFold]
  | cons ce rest ih =>
      intro i params
      rw [l2Epoch, updFold]
      exact ih (i + 1) (upd i params)

/-- Final parameters of a Dropout epoch. -/
lemma dropoutEpoch_final (upd : Upd) (ces : List ℚ) :
    ∀ (i : ℕ) (cl : ℚ) (params : Params),
      (dropoutEpoch upd i cl params ces).2.2 = updFold upd i params ces := by
  induction ces with
  | nil => intro i cl params; rw [dropoutEpoch, updFold]
  | cons ce rest ih =>
      intro i cl params
      rw [dropoutEpoch, updFold]
      exact ih (i + 1) _ (upd i params)

/-- Skeleton of an L1 epoch. -/
lemma l1Epoch_skel (upd : Upd) (ces : List ℚ) :
    ∀ (i : ℕ) (params : Params),
      skeletonOf (l1Epoch upd i params ces).1 = commonSkel upd i params ces := by
  induction ces with
  | nil => intro i params; rw [l1Epoch, commonSkel]; rfl
  | cons ce rest ih =>
      intro i params
      rw [l1Epoch, commonSkel, skeletonOf_cons, ih (i + 1) (upd i params)]
      by_cases hc : i % 500 = 499 <;> simp [hc, traceSkel, Ev.kind]

/-- Skeleton of an Elastic-Net epoch. -/
lemma enEpoch_skel (upd : Upd) (ces : List ℚ) :
    ∀ (i : ℕ) (params : Params),
      skeletonOf (enEpoch upd i params ces).1 = commonSkel upd i params ces := by
  induction ces with
  | nil => intro i params; rw [enEpoch, commonSkel]; rfl
  | cons ce rest ih =>
      intro i params
      rw [enEpoch, commonSkel, skeletonOf_cons, ih (i + 1) (upd i params)]
      by_cases hc : i % 500 = 499 <;> simp [hc, traceSkel, Ev.kind]

/-- Skeleton of an L2 epoch. -/
lemma l2Epoch_skel (upd : Upd) (ces : List ℚ) :
    ∀ (i : ℕ) (params : Params),
      skeletonOf (l2Epoch upd i params ces).1 = commonSkel upd i params ces := by
  induction ces with
  | nil => intro i params; rw [l2Epoch, commonSkel]; rfl
  | cons ce rest ih =>
      intro i params
      rw [l2Epoch, commonSkel, skeletonOf_cons, ih (i + 1) (upd i params)]
      by_cases hc : i % 500 = 499 <;> simp [hc, traceSkel, Ev.kind]

/-- Skeleton of a Dropout epoch. -/
lemma dropoutEpoch_skel (upd : Upd) (ces : List ℚ) :
    ∀ (i : ℕ) (cl : ℚ) (params : Params),
      skeletonOf (dropoutEpoch upd i cl params ces).1 = commonSkel upd i params ces := by
  induction ces with
  | nil => intro i cl params; rw [dropoutEpoch, commonSkel]; rfl
  | cons ce rest ih =>
      intro i cl params
      rw [dropoutEpoch, commonSkel, skeletonOf_cons, ih (i + 1) _ (upd i params)]
      by_cases hc : i % 500 = 499 <;> simp [hc, traceSkel, Ev.kind]

/-- Skeleton of the full L1 training run. -/
lemma l1Training_skel (upd : Upd) (es : List (List ℚ)) :
    ∀ (params : Params),
      ((l1Training upd params es).1).map skeletonOf = commonTrainingSkel upd params es := by
  induction es with
  | nil => intro params; rw [l1Training, commonTrainingSkel]; rfl
  | cons e es ih =>
      intro params
      rw [l1Training, commonTrainingSkel, List.map_cons]
      rw [l1Epoch_skel upd e 0 params, l1Epoch_final upd e 0 params]
      rw [ih]

/-- Skeleton of the full Elastic-Net training run. -/
lemma enTraining_skel (upd : Upd) (es : List (List ℚ)) :
    ∀ (params : Params),
      ((enTraining upd params es).1).map skeletonOf = commonTrainingSkel upd params es := by
  induction es with
  | nil => intro params; rw [enTraining, commonTrainingSkel]; rfl
  | cons e es ih =>
      intro params
      rw [enTraining, commonTrainingSkel, List.map_cons]
      rw [enEpoch_skel upd e 0 params, enEpoch_final upd e 0 params]
      rw [ih]

/-- Skeleton of the full L2 training run. -/
lemma l2Training_skel (upd : Upd) (es : List (List ℚ)) :
    ∀ (params : Params),
      ((l2Training upd params es).1).map skeletonOf = commonTrainingSkel upd params es := by
  induction es with
  | nil => intro params; rw [l2Training, commonTrainingSkel]; rfl
  | cons e es ih =>
      intro params
      rw [l2Training, commonTrainingSkel, List.map_cons]
      rw [l2Epoch_skel upd e 0 params, l2Epoch_final upd e 0 params]
      rw [ih]

/-- Skeleton of the full Dropout training run. -/
lemma dropoutTraining_skel (upd : Upd) (es : List (List ℚ)) :
    ∀ (params : Params),
      ((dropoutTraining upd params es).1).map skeletonOf = commonTrainingSkel upd params es := by
  induction es with
  | nil => intro params; rw [dropoutTraining, commonTrainingSkel]; rfl
  | cons e es ih =>
      intro params
      rw [dropoutTraining, commonTrainingSkel, List.map_cons]
      rw [dropoutEpoch_skel upd e 0 0 params, dropoutEpoch_final upd e 0 0 params]
      rw [ih]

/-- Claim C4, amended: the L1, L2, Elastic-Net and Dropout/weight-decay
training loops agree, on the same inputs, in their optimizer family and
learning rate (the Dropout notebook's `weight_decay=1.0` being its
regularization), and in their per-iteration skeletons (batch indices,
parameter evolution, cross-entropy values, the five framework calls in
order, and the `i % 500 == 499` print condition); their losses differ
exactly by the penalty each notebook adds, and their printed statistics
differ: the L1, L2 and Elastic-Net notebooks print the current mini-batch's
loss, while the Dropout notebook prints the 500-batch accumulated average. -/
theorem c4_loops_amended (upd : Upd) (params : Params) (epochs : List (List ℚ))
    (r : IterRec) :
    (l1Optim = l2Optim ∧ l1Optim = enOptim ∧ l1Optim.algo = dropoutOptim.algo ∧
      l1Optim.lr = dropoutOptim.lr ∧ dropoutOptim.weight_decay = some 1) ∧
    ((l1Training upd params epochs).1).map skeletonOf
        = ((l2Training upd params epochs).1).map skeletonOf ∧
    ((l1Training upd params epochs).1).map skeletonOf
        = ((enTraining upd params epochs).1).map skeletonOf ∧
    ((l1Training upd params epochs).1).map skeletonOf
        = ((dropoutTraining upd params epochs).1).map skeletonOf ∧
    (r ∈ ((l1Training upd params epochs).1).flatten →
        r.loss = r.ce + 1 * MLP.compute_l1_loss r.paramsBefore.flatten ∧
        r.printed = (if r.idx % 500 = 499 then some (r.idx + 1, r.loss) else none)) ∧
    (r ∈ ((l2Training upd params epochs).1).flatten →
        r.loss = r.ce + 1 * MLP.compute_l2_loss r.paramsBefore.flatten ∧
        r.printed = (if r.idx % 500 = 499 then some (r.idx + 1, r.loss) else none)) ∧
    (r ∈ ((enTraining upd params epochs).1).flatten →
        r.loss = r.ce + (3 / 10 * MLP.compute_l1_loss r.paramsBefore.flatten
            + 7 / 10 * MLP.compute_l2_loss r.paramsBefore.flatten) ∧
        r.printed = (if r.idx % 500 = 499 then some (r.idx + 1, r.loss) else none)) ∧
    (r ∈ ((dropoutTraining upd params epochs).1).flatten → r.loss = r.ce) ∧
    ((dropoutTraining upd params epochs).1).map printsOf
      = epochs.map (fun ces => (List.range (ces.length / 500)).map
          (fun j => (500 * (j + 1), ((ces.drop (500 * j)).take 500).sum / 500))) := by
  refine ⟨⟨rfl, rfl, rfl, rfl, rfl⟩, ?_, ?_, ?_, ?_, ?_, ?_, ?_, ?_⟩
  · rw [l1Training_skel, l2Training_skel]
  · rw [l1Training_skel, enTraining_skel]
  · rw [l1Training_skel, dropoutTraining_skel]
  · intro h
    obtain ⟨h1, -, h3⟩ := l1Training_mem upd epochs params r h
    exact ⟨h1, h3⟩
  · intro h
    obtain ⟨h1, -, h3⟩ := l2Training_mem upd epochs params r h
    exact ⟨h1, h3⟩
  · intro h
    obtain ⟨h1, -, h3⟩ := enTraining_mem upd epochs params r h
    exact ⟨h1, h3⟩
  · intro h
    exact (dropoutTraining_mem upd epochs params r h).1
  · exact dropoutTraining_prints upd epochs params

/-- Witness for C4 (amended) at a concrete one-batch run: the L1 and
Dropout loops produce the same skeleton. -/
theorem c4_loops_amended_witness :
    ((l1Training (fun _ p => p) [[1, -2]] [[5]]).1).map skeletonOf
      = ((dropoutTraining (fun _ p => p) [[1, -2]] [[5]]).1).map skeletonOf :=
  (c4_loops_amended (fun _ p => p) [[1, -2]] [[5]]
    ⟨0, [], 0, 0, [], none⟩).2.2.2.1

/-- Counterexample for C4 as stated: on the same loss stream with empty
(penalty-inert) parameters the per-iteration backpropagated losses of the L1
and Dropout runs coincide, yet the printed statistics differ — `[(500, 1)]`
against `[(500, 501/500)]` — so the printed-statistics behaviour of the two
loops is not the same even apart from the regularization itself. -/
theorem c4_counterexample :
    (((l1Training (fun _ p => p) [] [ceStream]).1).flatten).map IterRec.loss
      = (((dropoutTraining (fun _ p => p) [] [ceStream]).1).flatten).map IterRec.loss ∧
    printsOf (((l1Training (fun _ p => p) [] [ceStream]).1).flatten)
      ≠ printsOf (((dropoutTraining (fun _ p => p) [] [ceStream]).1).flatten) := by
  constructor
  · have h1 : ((l1Training (fun _ p => p) [] [ceStream]).1).flatten
        = (l1Epoch (fun _ p => p) 0 [] ceStream).1 := by
      simp only [l1Training, List.flatten_cons, List.flatten_nil, List.append_nil]
    have h2 : ((dropoutTraining (fun _ p => p) [] [ceStream]).1).flatten
        = (dropoutEpoch (fun _ p => p) 0 0 [] ceStream).1 := by
      simp only [dropoutTraining, List.flatten_cons, List.flatten_nil, List.append_nil]
    rw [h1, h2, l1Epoch_nil_losses, dropoutEpoch_losses]
  · rw [l1_ceStream_prints, dropout_ceStream_prints]
    intro hcontra
    have hfig : (1 : ℚ) = 501 / 500 := congrArg Prod.snd (List.cons.inj hcontra).1
    norm_num at hfig
